import Mathlib

/-!
Shallow embedding of the clock-correction / phase-pipeline core of PINT:
`pint/observatory/topo_obs.py` (class `TopoObs`) and
`pint/scripts/fermiphase.py` (function `main`).

Modelling conventions:
* Timestamps, clock-correction values and phases are rationals (seconds,
  MJDs, cycles); the Python code carries astropy units, which are fixed
  here to canonical units (the BIPM constant `32.184e6 us` becomes the
  rational `32.184` seconds).
* A `ClockFile` is its `evaluate` function (the file parser is an external
  collaborator); the filesystem is a `ClockEnv` giving, for each of the
  three chain stages, the clock file that a `ClockFile.read` of the
  resolved path would produce, or `none` when reading fails.
* Python exceptions become `Except String`; raising is `Except.error` with
  the message the Python code formats (quote characters dropped).
* The in-place mutation of the caller-supplied `aliases` list is modelled
  with an explicit heap `Store` of string lists addressed by `Nat`.
-/

namespace PintSpec

/-- External collaborator `ClockFile`: an already-parsed clock table,
reduced to its `evaluate` operation (timestamp ↦ correction, seconds). -/
structure ClockFile where
  evaluate : ℚ → ℚ

/-- The file system as seen by the three clock-chain stages: the result of
reading the resolved site, GPS and BIPM clock files (`none` = the read
raises / the path does not resolve). -/
structure ClockEnv where
  siteFile : Option ClockFile
  gpsFile : Option ClockFile
  bipmFile : Option ClockFile

/-- Heap of Python list objects of strings, addressed by `Nat`; models the
aliasing of the caller-supplied `aliases` list in `TopoObs.__init__`. -/
abbrev Store := List (List String)

/-- The keyword arguments of `TopoObs.__init__`, with the Python default
values. `aliases` is an optional heap address (the caller's list object). -/
structure TopoObsArgs where
  name : String
  tempo_code : Option String := none
  itoa_code : Option String := none
  aliases : Option Nat := none
  itrf_xyz : Option (List ℚ) := none
  clock_file : String := "time.dat"
  clock_dir : String := "PINT"
  clock_fmt : String := "tempo"
  include_gps : Bool := true
  include_bipm : Bool := true
  bipm_version : String := "BIPM2015"

/-- A constructed `TopoObs` instance: configuration plus the three
lazily-populated clock-table cache slots (`None` sentinels in Python). -/
structure TopoObs where
  name : String
  loc_itrf : List ℚ
  clock_file : String
  clock_dir : String
  clock_fmt : String
  tempo_code : Option String
  include_gps : Bool
  include_bipm : Bool
  bipm_version : String
  clock : Option ClockFile
  gps_clock : Option ClockFile
  bipm_clock : Option ClockFile
  aliases_addr : Nat

/-- `TopoObs.__init__`: validates the ITRF coordinates, checks the legacy
TEMPO `time.dat` convention, appends `tempo_code` / `itoa_code` to the
caller's `aliases` list (allocating a fresh empty list when `aliases` is
`None`), and produces the instance with empty cache slots. -/
def TopoObs.init (args : TopoObsArgs) (store : Store) :
    Except String (TopoObs × Store) :=
  match args.itrf_xyz with
  | none => Except.error ("ITRF coordinates not given for observatory " ++ args.name)
  | some xyz =>
    if xyz.length ≠ 3 then
      Except.error ("Incorrect coordinate dimensions for observatory " ++ args.name)
    else if args.clock_dir = "TEMPO" ∧ args.clock_file = "time.dat"
            ∧ args.tempo_code = none then
      Except.error ("No tempo_code set for observatory " ++ args.name)
    else
      let pair : Nat × Store :=
        match args.aliases with
        | some a => (a, store)
        | none => (store.length, store ++ [[]])
      let codes := [args.tempo_code, args.itoa_code].filterMap id
      let store2 := pair.2.set pair.1 ((pair.2.getD pair.1 []) ++ codes)
      Except.ok
        ({ name := args.name, loc_itrf := xyz, clock_file := args.clock_file,
           clock_dir := args.clock_dir, clock_fmt := args.clock_fmt,
           tempo_code := args.tempo_code, include_gps := args.include_gps,
           include_bipm := args.include_bipm, bipm_version := args.bipm_version,
           clock := none, gps_clock := none, bipm_clock := none,
           aliases_addr := pair.1 }, store2)

/-- The fixed TAI→TT offset subtracted on the BIPM stage:
`32.184 * 1e6 us` in the source, i.e. 32.184 seconds. -/
def tt2tai : ℚ := 32184 / 1000

/-- The lazy cache-or-read pattern of each clock-chain stage: a populated
cache slot is used as is; otherwise the file is read, and a failing read
surfaces as the error `err`. -/
def loadCached (cache : Option ClockFile) (file : Option ClockFile)
    (err : String) : Except String ClockFile :=
  match cache with
  | some c => Except.ok c
  | none =>
    match file with
    | some c => Except.ok c
    | none => Except.error err

/-- Error reported when the site clock file cannot be read. -/
def TopoObs.siteErr (obs : TopoObs) : String :=
  "missing clock file " ++ obs.clock_file

/-- Error reported when the GPS clock file cannot be read. -/
def gpsErr : String := "missing clock file gps2utc.clk"

/-- The `ValueError` message raised when the BIPM clock file cannot be
read: it names the configured BIPM version. -/
def TopoObs.bipmErr (obs : TopoObs) : String :=
  "Can not find TT BIPM file " ++ obs.bipm_version ++ ". "

/-- BIPM file name derived from the configured version (lower-cased,
surrounded by the fixed stem), as in `bipm_fullpath`. -/
def TopoObs.bipm_fname (obs : TopoObs) : String :=
  "tai2tt_" ++ obs.bipm_version.toLower ++ ".clk"

/-- Stage 3 of `clock_corrections`: when `include_bipm` is set, load (or
reuse) the BIPM table and add its value minus `tt2tai`; otherwise pass the
accumulated correction through unchanged. -/
def TopoObs.bipmStage (env : ClockEnv) (obs : TopoObs) (corr t : ℚ) :
    Except String (ℚ × TopoObs) :=
  if obs.include_bipm then
    match loadCached obs.bipm_clock env.bipmFile obs.bipmErr with
    | Except.error e => Except.error e
    | Except.ok bipm =>
      Except.ok (corr + (bipm.evaluate t - tt2tai),
                 { obs with bipm_clock := some bipm })
  else Except.ok (corr, obs)

/-- Stage 2 of `clock_corrections`: when `include_gps` is set, load (or
reuse) the GPS table and add its value, then run the BIPM stage. -/
def TopoObs.gpsStage (env : ClockEnv) (obs : TopoObs) (corr t : ℚ) :
    Except String (ℚ × TopoObs) :=
  if obs.include_gps then
    match loadCached obs.gps_clock env.gpsFile gpsErr with
    | Except.error e => Except.error e
    | Except.ok gps =>
      TopoObs.bipmStage env { obs with gps_clock := some gps }
        (corr + gps.evaluate t) t
  else TopoObs.bipmStage env obs corr t

/-- `TopoObs.clock_corrections(t)`: read (once, cached) the site clock
file, evaluate it at `t` as the base term, then run the optional GPS and
BIPM stages. Returns the aggregate correction and the instance with its
updated cache slots. -/
def TopoObs.clock_corrections (env : ClockEnv) (obs : TopoObs) (t : ℚ) :
    Except String (ℚ × TopoObs) :=
  match loadCached obs.clock env.siteFile obs.siteErr with
  | Except.error e => Except.error e
  | Except.ok site =>
    TopoObs.gpsStage env { obs with clock := some site } (site.evaluate t) t

/-- A clock-chain stage resolves to table `c`: either the cache slot
already holds `c`, or the slot is empty and reading the file yields `c`. -/
def resolvesTo (cache file : Option ClockFile) (c : ClockFile) : Prop :=
  cache = some c ∨ (cache = none ∧ file = some c)

/-- A position/velocity pair (`pint.utils.PosVel`), 3-vectors over ℚ. -/
structure PosVel where
  pos : ℚ × ℚ × ℚ
  vel : ℚ × ℚ × ℚ

/-- `PosVel.__add__`: componentwise vector sum. -/
def PosVel.add (a b : PosVel) : PosVel :=
  { pos := a.pos + b.pos, vel := a.vel + b.vel }

/-- The `t` argument of `posvel`: an astropy `Time` that is either scalar
or an array of timestamps. -/
inductive TimeInput where
  | scalar (t : ℚ)
  | array (ts : List ℚ)

/-- The scalar-normalization `if t.isscalar: t = Time([t])`. -/
def TimeInput.normalize : TimeInput → List ℚ
  | TimeInput.scalar t => [t]
  | TimeInput.array ts => ts

/-- `TopoObs.posvel(t, ephem)`: the vectorized external collaborators
(`objPosVel_wrt_SSB` for Earth w.r.t. the barycenter, and
`gcrs_posvel_from_itrf` for the observatory w.r.t. the geocenter) are
evaluated at each timestamp and summed, after scalar normalization. -/
def TopoObs.posvel (earthEphem obsItrf : ℚ → PosVel) (t : TimeInput) :
    List PosVel :=
  (t.normalize).map (fun x => PosVel.add (obsItrf x) (earthEphem x))

/-- One Fermi event TOA as the MJD filter sees it: an MJD and a weight. -/
structure TOA where
  mjd : ℚ
  weight : ℚ

/-- The `--minMJD` pass of `fermiphase.main`: keep events with
`tt.mjd > minT` (strict). -/
def filterMin (minT : ℚ) (tl : List TOA) : List TOA :=
  tl.filter (fun tt => minT < tt.mjd)

/-- The `--maxMJD` pass of `fermiphase.main`: keep events with
`tt.mjd < maxT` (strict). -/
def filterMax (maxT : ℚ) (tl : List TOA) : List TOA :=
  tl.filter (fun tt => tt.mjd < maxT)

/-- The phase fold `np.where(phss < 0.0, phss + 1.0, phss)`, one element. -/
def foldPhase (p : ℚ) : ℚ :=
  if p < 0 then p + 1 else p

/-- The phase fold applied to the whole phase array. -/
def foldPhases (phss : List ℚ) : List ℚ :=
  phss.map foldPhase

/-- The command-line arguments of `fermiphase` that the post-parse
normalization looks at. -/
structure FermiArgs where
  outfile : Option String
  addphase : Bool

/-- The post-parse fixup `if args.outfile is not None: args.addphase = True`. -/
def normalizeArgs (a : FermiArgs) : FermiArgs :=
  if a.outfile.isSome then { a with addphase := true } else a

/-- The event FITS table (HDU 1) as the add-phase path sees it: a row
count, the column names, and the phase column content if one exists. -/
structure FitsTable where
  nrows : Nat
  colnames : List String
  phaseCol : Option (List ℚ)

/-- The externally visible write performed at the end of the add-phase
path: either a flush of the input file opened in update mode, or a
`writeto` of a new output file. -/
inductive WriteAction where
  | flushInPlace (fname : String)
  | writeNew (fname : String)

/-- The `RuntimeError` message raised on an event/phase length mismatch. -/
def mismatchMsg (nEvents nPhases : Nat) : String :=
  "Mismatch between length of FITS table (" ++ toString nEvents ++
    ") and length of phase array (" ++ toString nPhases ++ ")!"

/-- The add-phase path of `fermiphase.main`: re-read the event table,
check the row count against the phase array, overwrite or append the
`PULSE_PHASE` column, and only then flush in place or write a new file.
The length check happens before any modification or write. -/
def addPhase (eventfile : String) (outfile : Option String)
    (tbl : FitsTable) (phases : List ℚ) :
    Except String (FitsTable × WriteAction) :=
  if tbl.nrows ≠ phases.length then
    Except.error (mismatchMsg tbl.nrows phases.length)
  else
    let tbl2 :=
      if "PULSE_PHASE" ∈ tbl.colnames then
        { tbl with phaseCol := some phases }
      else
        { tbl with colnames := tbl.colnames ++ ["PULSE_PHASE"],
                   phaseCol := some phases }
    match outfile with
    | none => Except.ok (tbl2, WriteAction.flushInPlace eventfile)
    | some f => Except.ok (tbl2, WriteAction.writeNew f)

/-- Whether an `Except` result is an error (a raised Python exception). -/
def exceptIsError {ε α : Type} : Except ε α → Bool
  | Except.error _ => true
  | Except.ok _ => false

/-!  Theorems  -/

/-- C3 counterexample: the folding step `if p < 0 then p + 1 else p` does
not map every phase value into [0, 1): the input 3/2 is returned
unchanged (not below 1), and the input -3/2 becomes -1/2 (still
negative). -/
theorem foldPhase_not_always_in_unit_interval :
    (foldPhase (3 / 2) = 3 / 2 ∧
      ¬ (0 ≤ foldPhase (3 / 2) ∧ foldPhase (3 / 2) < 1)) ∧
    (foldPhase (-(3 / 2)) = -(1 / 2) ∧
      ¬ (0 ≤ foldPhase (-(3 / 2)) ∧ foldPhase (-(3 / 2)) < 1)) := by
  refine ⟨⟨by norm_num [foldPhase], fun h => ?_⟩,
          ⟨by norm_num [foldPhase], fun h => ?_⟩⟩
  · have h2 := h.2
    norm_num [foldPhase] at h2
  · have h1 := h.1
    norm_num [foldPhase] at h1

/-- C3 (amended): for every phase value strictly between -1 and 1, the
folding step produces an output in [0, 1); an input of exactly 0 maps to
0 and an input of -1/4 maps to 3/4. -/
theorem foldPhase_unit_interval (p : ℚ) (h1 : -1 < p) (h2 : p < 1) :
    (0 ≤ foldPhase p ∧ foldPhase p < 1) ∧
    foldPhase 0 = 0 ∧ foldPhase (-(1 / 4)) = 3 / 4 := by
  refine ⟨⟨?_, ?_⟩, by norm_num [foldPhase], by norm_num [foldPhase]⟩ <;>
    · unfold foldPhase
      split <;> linarith

/-- Witness for C3 (amended) at the concrete input -1/4. -/
theorem foldPhase_unit_interval_witness :
    (0 ≤ foldPhase (-(1 / 4)) ∧ foldPhase (-(1 / 4)) < 1) ∧
    foldPhase 0 = 0 ∧ foldPhase (-(1 / 4)) = 3 / 4 :=
  foldPhase_unit_interval (-(1 / 4)) (by norm_num) (by norm_num)

/-- C6: the MJD filters are strict on both bounds — an event whose MJD
equals `minMJD` (resp. `maxMJD`) is excluded by the corresponding pass —
and applying the min-bound pass then the max-bound pass gives the same
list as the opposite order. -/
theorem mjd_filter_strict_and_commutes (tl : List TOA) (minT maxT : ℚ)
    (b b2 : TOA) (hb : b.mjd = minT) (hb2 : b2.mjd = maxT) :
    b ∉ filterMin minT tl ∧ b2 ∉ filterMax maxT tl ∧
    filterMax maxT (filterMin minT tl) = filterMin minT (filterMax maxT tl) := by
  refine ⟨?_, ?_, ?_⟩
  · intro hmem
    have h := (List.mem_filter.mp hmem).2
    rw [hb] at h
    simp at h
  · intro hmem
    have h := (List.mem_filter.mp hmem).2
    rw [hb2] at h
    simp at h
  · simp only [filterMin, filterMax, List.filter_filter]
    apply List.filter_congr
    intro a _
    exact Bool.and_comm _ _

/-- Witness for C6 with events at MJDs 0 and 1 and bounds 0 and 1. -/
theorem mjd_filter_strict_and_commutes_witness :
    (⟨0, 1⟩ : TOA) ∉ filterMin 0 [⟨0, 1⟩, ⟨1, 1⟩] ∧
    (⟨1, 1⟩ : TOA) ∉ filterMax 1 [⟨0, 1⟩, ⟨1, 1⟩] ∧
    filterMax 1 (filterMin 0 [⟨0, 1⟩, ⟨1, 1⟩])
      = filterMin 0 (filterMax 1 [⟨0, 1⟩, ⟨1, 1⟩]) :=
  mjd_filter_strict_and_commutes [⟨0, 1⟩, ⟨1, 1⟩] 0 1 ⟨0, 1⟩ ⟨1, 1⟩ rfl rfl

/-- C7: on the add-phase path a row-count/phase-count mismatch aborts
with the RuntimeError naming both lengths, and no write action is
produced. -/
theorem addPhase_mismatch_aborts (eventfile : String) (outfile : Option String)
    (tbl : FitsTable) (phases : List ℚ) (hne : tbl.nrows ≠ phases.length) :
    addPhase eventfile outfile tbl phases =
      Except.error (mismatchMsg tbl.nrows phases.length) ∧
    ∀ r, addPhase eventfile outfile tbl phases ≠ Except.ok r := by
  have h1 : addPhase eventfile outfile tbl phases =
      Except.error (mismatchMsg tbl.nrows phases.length) := by
    unfold addPhase
    rw [if_pos hne]
  refine ⟨h1, fun r hr => ?_⟩
  rw [h1] at hr
  exact Except.noConfusion hr

/-- Witness for C7: 100 event rows against 99 phases. -/
theorem addPhase_mismatch_aborts_witness :
    addPhase "events.fits" none ⟨100, [], none⟩ (List.replicate 99 0) =
      Except.error (mismatchMsg 100 (List.replicate 99 (0 : ℚ)).length) ∧
    ∀ r, addPhase "events.fits" none ⟨100, [], none⟩ (List.replicate 99 0) ≠
      Except.ok r :=
  addPhase_mismatch_aborts "events.fits" none ⟨100, [], none⟩
    (List.replicate 99 0) (by simp)

/-- C9: supplying an output file path turns on the add-phase behavior
even when the add-phase flag was not given. -/
theorem outfile_implies_addphase (a : FermiArgs) (f : String)
    (hf : a.outfile = some f) : (normalizeArgs a).addphase = true := by
  simp [normalizeArgs, hf]

/-- Witness for C9: `--outfile out.fits` with `--addphase` absent. -/
theorem outfile_implies_addphase_witness :
    (normalizeArgs { outfile := some "out.fits", addphase := false }).addphase
      = true :=
  outfile_implies_addphase { outfile := some "out.fits", addphase := false }
    "out.fits" rfl

/-- C4: construction without ITRF coordinates, construction with a
2-element coordinate array, and construction under the TEMPO `time.dat`
convention without a tempo site code each raise a configuration error. -/
theorem init_config_errors (a1 a2 a3 : TopoObsArgs) (s1 s2 s3 : Store)
    (h1 : a1.itrf_xyz = none)
    (x y : ℚ) (h2 : a2.itrf_xyz = some [x, y])
    (h3d : a3.clock_dir = "TEMPO") (h3f : a3.clock_file = "time.dat")
    (h3c : a3.tempo_code = none) :
    exceptIsError (TopoObs.init a1 s1) = true ∧
    exceptIsError (TopoObs.init a2 s2) = true ∧
    exceptIsError (TopoObs.init a3 s3) = true := by
  refine ⟨?_, ?_, ?_⟩
  · simp [TopoObs.init, h1, exceptIsError]
  · simp [TopoObs.init, h2, exceptIsError]
  · unfold TopoObs.init
    cases hxyz : a3.itrf_xyz with
    | none => simp [exceptIsError]
    | some xyz =>
      by_cases hl : xyz.length = 3
      · simp [hl, h3d, h3f, h3c, exceptIsError]
      · simp [hl, exceptIsError]

/-- Witness for C4: three concrete failing constructions. -/
theorem init_config_errors_witness :
    exceptIsError (TopoObs.init { name := "a" } []) = true ∧
    exceptIsError (TopoObs.init { name := "b", itrf_xyz := some [1, 2] } []) = true ∧
    exceptIsError (TopoObs.init
      { name := "c", itrf_xyz := some [1, 2, 3], clock_dir := "TEMPO" } []) = true :=
  init_config_errors { name := "a" } { name := "b", itrf_xyz := some [1, 2] }
    { name := "c", itrf_xyz := some [1, 2, 3], clock_dir := "TEMPO" }
    [] [] [] rfl 1 2 rfl rfl rfl rfl

/-- C10: when an aliases list (heap address `a`) is passed together with
`tempo_code` / `itoa_code`, a successful construction updates the heap at
that same address, appending exactly those codes to the caller's list. -/
theorem init_mutates_caller_aliases (args : TopoObsArgs) (store : Store) (a : Nat)
    (ha : args.aliases = some a) (halen : a < store.length)
    (xyz : List ℚ) (hx : args.itrf_xyz = some xyz) (hx3 : xyz.length = 3)
    (hc : ¬(args.clock_dir = "TEMPO" ∧ args.clock_file = "time.dat"
            ∧ args.tempo_code = none)) :
    ∃ obs store2, TopoObs.init args store = Except.ok (obs, store2)
      ∧ store2 = store.set a
          (store.getD a [] ++ [args.tempo_code, args.itoa_code].filterMap id)
      ∧ store2.getD a []
          = store.getD a [] ++ [args.tempo_code, args.itoa_code].filterMap id
      ∧ obs.aliases_addr = a := by
  have hinit : TopoObs.init args store = Except.ok
      ({ name := args.name, loc_itrf := xyz, clock_file := args.clock_file,
         clock_dir := args.clock_dir, clock_fmt := args.clock_fmt,
         tempo_code := args.tempo_code, include_gps := args.include_gps,
         include_bipm := args.include_bipm, bipm_version := args.bipm_version,
         clock := none, gps_clock := none, bipm_clock := none,
         aliases_addr := a },
       store.set a (store.getD a []
         ++ [args.tempo_code, args.itoa_code].filterMap id)) := by
    simp only [TopoObs.init, hx, ha]
    rw [if_neg (by simp [hx3]), if_neg hc]
  refine ⟨_, _, hinit, rfl, ?_, rfl⟩
  simp only [List.getD]
  rw [List.get?_set_eq_of_lt _ halen]
  rfl

/-- Witness for C10: caller passes the list at heap address 0 holding
["x"]; after construction that list is ["x", "T", "IT"]. -/
theorem init_mutates_caller_aliases_witness :
    ∃ obs store2, TopoObs.init
        { name := "gbt", tempo_code := some "T", itoa_code := some "IT",
          aliases := some 0, itrf_xyz := some [1, 2, 3] } [["x"]]
        = Except.ok (obs, store2)
      ∧ store2 = [["x"]].set 0 ([["x"]].getD 0 []
          ++ [some "T", some "IT"].filterMap id)
      ∧ store2.getD 0 []
          = [["x"]].getD 0 [] ++ [some "T", some "IT"].filterMap id
      ∧ obs.aliases_addr = 0 :=
  init_mutates_caller_aliases
    { name := "gbt", tempo_code := some "T", itoa_code := some "IT",
      aliases := some 0, itrf_xyz := some [1, 2, 3] } [["x"]] 0
    rfl (by decide) [1, 2, 3] rfl rfl (by simp)

/-- C5: `posvel` is additive — for every timestamp of the (scalar-
normalized) input, the result is the ITRF-transform observatory vector
plus the ephemeris Earth vector at that timestamp, and a scalar input
yields the length-1 result. -/
theorem posvel_additive (earthEphem obsItrf : ℚ → PosVel) (t : TimeInput) :
    (∀ (i : Nat) (x : ℚ), (t.normalize)[i]? = some x →
        (TopoObs.posvel earthEphem obsItrf t)[i]? =
          some (PosVel.add (obsItrf x) (earthEphem x))) ∧
    (∀ q : ℚ, TopoObs.posvel earthEphem obsItrf (TimeInput.scalar q) =
        [PosVel.add (obsItrf q) (earthEphem q)]) := by
  constructor
  · intro i x hx
    unfold TopoObs.posvel
    rw [List.getElem?_map, hx]
    rfl
  · intro q
    rfl

/-- Concrete ephemeris collaborator for the C5 witness. -/
def earthEphemW : ℚ → PosVel := fun x => { pos := (x, 0, 0), vel := (0, x, 0) }

/-- Concrete ITRF-transform collaborator for the C5 witness. -/
def obsItrfW : ℚ → PosVel := fun x => { pos := (0, 0, x), vel := (x, 0, 0) }

/-- Witness for C5 at index 1 of the input array [1, 2]. -/
theorem posvel_additive_witness :
    (TopoObs.posvel earthEphemW obsItrfW (TimeInput.array [1, 2]))[1]? =
      some (PosVel.add (obsItrfW 2) (earthEphemW 2)) :=
  (posvel_additive earthEphemW obsItrfW (TimeInput.array [1, 2])).1 1 2 rfl

/-- A stage that resolves to table `c` loads as `Except.ok c`, whatever
the error message for the failing case would have been. -/
theorem loadCached_resolves {cache file : Option ClockFile} {c : ClockFile}
    (h : resolvesTo cache file c) (err : String) :
    loadCached cache file err = Except.ok c := by
  rcases h with h | ⟨h1, h2⟩
  · rw [h]
    rfl
  · rw [h1, h2]
    rfl

/-- C1: for every timestamp and every combination of the `include_gps`
and `include_bipm` flags, `clock_corrections` returns the site table
value, plus the GPS table value when `include_gps` is set, plus the BIPM
table value minus the 32.184 s TAI→TT offset when `include_bipm` is set. -/
theorem clock_corrections_sum (env : ClockEnv) (obs : TopoObs) (t : ℚ)
    (site gps bipm : ClockFile)
    (hs : resolvesTo obs.clock env.siteFile site)
    (hg : resolvesTo obs.gps_clock env.gpsFile gps)
    (hb : resolvesTo obs.bipm_clock env.bipmFile bipm) :
    (TopoObs.clock_corrections env obs t).map Prod.fst =
      Except.ok (site.evaluate t
        + (if obs.include_gps then gps.evaluate t else 0)
        + (if obs.include_bipm then bipm.evaluate t - tt2tai else 0)) := by
  unfold TopoObs.clock_corrections TopoObs.gpsStage TopoObs.bipmStage
  rw [loadCached_resolves hs]
  cases hgf : obs.include_gps <;> cases hbf : obs.include_bipm <;>
    simp [hgf, hbf, loadCached_resolves hg, loadCached_resolves hb, Except.map]

/-- Shared fixtures for the clock-chain witnesses: three concrete tables. -/
def siteClockW : ClockFile := { evaluate := fun t => t + 1 }

/-- Concrete GPS table for the clock-chain witnesses. -/
def gpsClockW : ClockFile := { evaluate := fun t => 2 * t }

/-- Concrete BIPM table for the clock-chain witnesses. -/
def bipmClockW : ClockFile := { evaluate := fun t => t * t }

/-- File system with all three clock files readable. -/
def envW : ClockEnv :=
  { siteFile := some siteClockW, gpsFile := some gpsClockW,
    bipmFile := some bipmClockW }

/-- A concrete observatory with empty cache slots and both stages on. -/
def obsW : TopoObs :=
  { name := "gbt", loc_itrf := [1, 2, 3], clock_file := "time.dat",
    clock_dir := "PINT", clock_fmt := "tempo", tempo_code := some "1",
    include_gps := true, include_bipm := true, bipm_version := "BIPM2015",
    clock := none, gps_clock := none, bipm_clock := none, aliases_addr := 0 }

/-- Witness for C1 at timestamp 2 with all stages enabled. -/
theorem clock_corrections_sum_witness :
    (TopoObs.clock_corrections envW obsW 2).map Prod.fst =
      Except.ok (siteClockW.evaluate 2
        + (if obsW.include_gps then gpsClockW.evaluate 2 else 0)
        + (if obsW.include_bipm then bipmClockW.evaluate 2 - tt2tai else 0)) :=
  clock_corrections_sum envW obsW 2 siteClockW gpsClockW bipmClockW
    (Or.inr ⟨rfl, rfl⟩) (Or.inr ⟨rfl, rfl⟩) (Or.inr ⟨rfl, rfl⟩)

/-- C2: with a stage disabled, the result of `clock_corrections` does not
depend on that stage's file at all — two file systems that agree on the
files of the enabled stages give identical results, whatever the disabled
stage's file holds (including being unreadable). -/
theorem clock_corrections_disabled_stage_independent (obs : TopoObs)
    (e1 e2 : ClockEnv) (t : ℚ) (hsite : e1.siteFile = e2.siteFile) :
    (obs.include_gps = false → e1.bipmFile = e2.bipmFile →
      TopoObs.clock_corrections e1 obs t = TopoObs.clock_corrections e2 obs t) ∧
    (obs.include_bipm = false → e1.gpsFile = e2.gpsFile →
      TopoObs.clock_corrections e1 obs t = TopoObs.clock_corrections e2 obs t) := by
  constructor
  · intro hg hbipm
    unfold TopoObs.clock_corrections TopoObs.gpsStage TopoObs.bipmStage
    rw [hsite, hbipm]
    simp [hg]
  · intro hb hgps
    unfold TopoObs.clock_corrections TopoObs.gpsStage TopoObs.bipmStage
    rw [hsite, hgps]
    simp [hb]

/-- Observatory with the GPS stage off, for the C2 witness. -/
def obsGpsOffW : TopoObs := { obsW with include_gps := false }

/-- Observatory with the BIPM stage off, for the C2 witness. -/
def obsBipmOffW : TopoObs := { obsW with include_bipm := false }

/-- File system whose GPS clock file is unreadable. -/
def envGpsNoneW : ClockEnv := { envW with gpsFile := none }

/-- File system whose BIPM clock file is unreadable. -/
def envBipmNoneW : ClockEnv := { envW with bipmFile := none }

/-- Witness for C2: with GPS (resp. BIPM) disabled, losing that stage's
file does not change the result. -/
theorem clock_corrections_disabled_stage_independent_witness :
    TopoObs.clock_corrections envW obsGpsOffW 2
      = TopoObs.clock_corrections envGpsNoneW obsGpsOffW 2 ∧
    TopoObs.clock_corrections envW obsBipmOffW 2
      = TopoObs.clock_corrections envBipmNoneW obsBipmOffW 2 :=
  ⟨(clock_corrections_disabled_stage_independent obsGpsOffW envW envGpsNoneW 2
      rfl).1 rfl rfl,
   (clock_corrections_disabled_stage_independent obsBipmOffW envW envBipmNoneW 2
      rfl).2 rfl rfl⟩

/-- C8: with the BIPM stage enabled and not yet cached, an unreadable
BIPM clock file makes `clock_corrections` fail with the configuration
error that names the configured BIPM version. -/
theorem clock_corrections_bipm_load_failure (env : ClockEnv) (obs : TopoObs)
    (t : ℚ) (site gps : ClockFile)
    (hs : resolvesTo obs.clock env.siteFile site)
    (hg : resolvesTo obs.gps_clock env.gpsFile gps ∨ obs.include_gps = false)
    (hb : obs.include_bipm = true)
    (hcache : obs.bipm_clock = none)
    (hfile : env.bipmFile = none) :
    TopoObs.clock_corrections env obs t =
      Except.error ("Can not find TT BIPM file " ++ obs.bipm_version ++ ". ") := by
  unfold TopoObs.clock_corrections TopoObs.gpsStage TopoObs.bipmStage
  rw [loadCached_resolves hs]
  rcases hg with (hgc | ⟨hgc, hgf⟩) | hg
  · simp [hgc, hb, hcache, hfile, loadCached, TopoObs.bipmErr]
  · simp [hgc, hgf, hb, hcache, hfile, loadCached, TopoObs.bipmErr]
  · simp [hg, hb, hcache, hfile, loadCached, TopoObs.bipmErr]

/-- Witness for C8: both stages enabled, no readable BIPM file. -/
theorem clock_corrections_bipm_load_failure_witness :
    TopoObs.clock_corrections envBipmNoneW obsW 2 =
      Except.error ("Can not find TT BIPM file " ++ obsW.bipm_version ++ ". ") :=
  clock_corrections_bipm_load_failure envBipmNoneW obsW 2 siteClockW gpsClockW
    (Or.inr ⟨rfl, rfl⟩) (Or.inl (Or.inr ⟨rfl, rfl⟩)) rfl rfl rfl

end PintSpec
